import Mathlib

set_option maxHeartbeats 1000000

namespace NewsPick

/-
Shallow embedding of src/src/main.py (a Flet news application).
The app state (class NewsState plus the mutable widgets the methods touch)
is modelled as an explicit record, and each method of NewsApp that mutates
it becomes a pure state-transformer.  External effects are parameters:
the HTTP response of a fetch, the outcome of each translation call, and
the contents of the favorites file.
-/

/-- A Python dict as the app handles it: the two fields the code reads
(title and description, via dict.get, an absent key giving None), plus a
number standing in for all remaining provider key-value pairs, so that
full-dictionary equality (used by list.remove in handle_favorite_click)
can differ from title/description equality (used by is_favorite). -/
structure PyDict where
  title : Option String
  description : Option String
  extra : Nat
deriving DecidableEq, Repr

/-- The NewsArticle dataclass of main.py. -/
structure NewsArticle where
  title : String
  description : String
  translated_title : String := ""
  translated_description : String := ""
  is_read : Bool := false
deriving DecidableEq, Repr

/-- The outcome of one call to GoogleTranslator.translate: some result,
or none when the call raises (caught in translate_text). -/
abbrev Translator := String → Option String

/-- NewsApp.translate_text: empty text maps to the empty string without a
translator call; a raised translation error falls back to the input text. -/
def translate_text (tr : Translator) (text : String) : String :=
  if text = "" then ""
  else
    match tr text with
    | some translated => translated
    | none => text

/-- NewsApp.translate_article: reads title and description with
dict.get(key, default empty), translates each non-empty field, and uses the
fixed placeholders for empty fields. -/
def translate_article (tr : Translator) (article : PyDict) : NewsArticle :=
  let title := article.title.getD ""
  let description := article.description.getD ""
  { title := title
    description := description
    translated_title := if title ≠ "" then translate_text tr title else "タイトルなし"
    translated_description := if description ≠ "" then translate_text tr description else "内容なし" }

/-- A rendered article container (NewsApp.create_article_container): it
captures the raw dict (for the favorite button callback) and the translated
article whose fields it displays. -/
structure ArticleContainer where
  raw : PyDict
  art : NewsArticle
deriving DecidableEq, Repr

def create_article_container (raw : PyDict) (art : NewsArticle) : ArticleContainer :=
  ⟨raw, art⟩

/-- An entry of headlines_list.controls: either an article container or a
plain text container (the empty-favorites placeholder). -/
inductive Control where
  | article (c : ArticleContainer)
  | note (text : String)
deriving DecidableEq, Repr

/-- The mutable state of the app: the NewsState fields plus the widget
fields the methods assign to (status text, loading and pagination
visibility, pagination label, list contents). -/
structure AppState where
  current_page : Nat
  articles_per_page : Nat
  current_country : String
  favorites : List PyDict
  all_articles : List ArticleContainer
  headlines : List Control
  status : String
  loading_visible : Bool
  pagination_visible : Bool
  pagination_text : String
deriving DecidableEq, Repr

/-- The countries property of NewsApp. -/
def countries : List (String × String) :=
  [("jp", "日本"), ("us", "アメリカ"), ("gb", "イギリス"), ("fr", "フランス"),
   ("de", "ドイツ"), ("kr", "韓国"), ("cn", "中国")]

/-- Lookup self.countries[country_code]; in Python an unknown code raises
KeyError, and every call site passes a key of the dict. -/
def country_name (country_code : String) : String :=
  ((countries.lookup country_code).getD ("KeyError: " ++ country_code))

/-- The initial state built by NewsApp.__init__ (NewsState defaults) after
load_favorites has populated the favorites list. -/
def initState (favorites : List PyDict) : AppState :=
  { current_page := 0
    articles_per_page := 10
    current_country := "jp"
    favorites := favorites
    all_articles := []
    headlines := []
    status := ""
    loading_visible := false
    pagination_visible := false
    pagination_text := "" }

/-- NewsApp.update_status. -/
def update_status (s : AppState) (message : String) : AppState :=
  { s with status := message }

/-- The page-count expression of display_articles and change_page:
(len(all_articles) + articles_per_page - 1) // articles_per_page. -/
def pageCount (total per : Nat) : Nat :=
  (total + per - 1) / per

/-- The slice all_articles[page_num*per : page_num*per + per] taken by
display_articles. -/
def pageSlice (l : List α) (page_num per : Nat) : List α :=
  (l.take (page_num * per + per)).drop (page_num * per)

/-- Concatenation of the slices for page indices 0 .. pageCount - 1, the
partition the spec attributes to the paginator. -/
def joinPages (l : List α) (per : Nat) : List α :=
  (List.range (pageCount l.length per)).flatMap fun i => pageSlice l i per

/-- NewsApp.display_articles. -/
def display_articles (s : AppState) (page_num : Nat) : AppState :=
  let s := { s with current_page := page_num }
  let current := pageSlice s.all_articles page_num s.articles_per_page
  let total_pages := pageCount s.all_articles.length s.articles_per_page
  { s with
      headlines := current.map Control.article
      pagination_text := "ページ " ++ toString (page_num + 1) ++ "/" ++ toString total_pages }

/-- NewsApp.change_page. -/
def change_page (s : AppState) (delta : Int) : AppState :=
  let new_page : Int := (s.current_page : Int) + delta
  if 0 ≤ new_page ∧ new_page < (pageCount s.all_articles.length s.articles_per_page : Int) then
    display_articles s new_page.toNat
  else
    s

/-- NewsApp.process_news_response: the dict.get call on the articles key
with default empty list is modelled by an Option (none when the key is
missing); each article is enriched by translate_article and wrapped in its
container. -/
def process_news_response (tr : Translator) (s : AppState) (data : Option (List PyDict))
    (country_code : String) : AppState :=
  let articles := data.getD []
  if articles.isEmpty then
    update_status s (country_name country_code ++ "のニュースが見つかりませんでした。")
  else
    let s := update_status s (toString articles.length ++ "件のニュースを取得しました")
    let s := { s with
      all_articles := s.all_articles ++
        articles.map (fun a => create_article_container a (translate_article tr a)) }
    let s := { s with
      pagination_visible := decide (s.articles_per_page < s.all_articles.length) }
    display_articles s 0

/-- The HTTP outcome observed by fetch_headlines: a 200 response with a
parsed JSON body, a non-200 status code, or a raised exception. -/
inductive FetchResult where
  | ok (data : Option (List PyDict))
  | httpError (code : Nat)
  | exn (msg : String)
deriving DecidableEq, Repr

/-- NewsApp.fetch_headlines: shows the loading indicator, clears the lists,
dispatches on the response, and hides the loading indicator in the finally
block. -/
def fetch_headlines (tr : Translator) (s : AppState) (country_code : String)
    (resp : FetchResult) : AppState :=
  let s := { s with loading_visible := true }
  let s := update_status s "ニュースを取得中..."
  let s := { s with headlines := [], all_articles := [] }
  let s :=
    match resp with
    | .ok data => process_news_response tr s data country_code
    | .httpError code =>
        update_status s ("ニュースの取得に失敗しました。(エラーコード: " ++ toString code ++ ")")
    | .exn msg => update_status s ("エラーが発生しました: " ++ msg)
  { s with loading_visible := false }

/-- The per-record comparison of NewsApp.is_favorite: the title read from
the stored record equals the title read from the article, and likewise for
the description (each read by dict.get, so an absent key gives None). -/
def matchesTD (fav article : PyDict) : Bool :=
  fav.title == article.title && fav.description == article.description

/-- NewsApp.is_favorite: membership by title and description only. -/
def is_favorite (favorites : List PyDict) (article : PyDict) : Bool :=
  favorites.any fun fav => matchesTD fav article

/-- Python list.remove: deletes the first element equal (full-dictionary
equality) to the argument; none models the ValueError raised when no
element is equal. -/
def listRemove : List PyDict → PyDict → Option (List PyDict)
  | [], _ => none
  | f :: fs, a => if f = a then some fs else (listRemove fs a).map (f :: ·)

/-- NewsApp.handle_favorite_click, restricted to the favorites mutation:
removes (by list.remove) when is_favorite, appends otherwise; the error
case is the uncaught ValueError of list.remove. -/
def handle_favorite_click (favorites : List PyDict) (article : PyDict) :
    Except Unit (List PyDict) :=
  if is_favorite favorites article then
    match listRemove favorites article with
    | some fs => .ok fs
    | none => .error ()
  else
    .ok (favorites ++ [article])

/-- Two successive favorite toggles with the identical article argument;
the second runs only if the first did not raise. -/
def doubleToggle (favorites : List PyDict) (article : PyDict) :
    Except Unit (List PyDict) :=
  match handle_favorite_click favorites article with
  | .ok fs => handle_favorite_click fs article
  | .error e => .error e

/-- The favorites file as load_favorites observes it: missing, present but
not valid JSON, or a parsed JSON array of records. -/
inductive FavFile where
  | absent
  | invalidJson
  | valid (records : List PyDict)
deriving DecidableEq, Repr

/-- NewsApp.load_favorites: a missing file leaves the favorites list as
initialised; a JSONDecodeError (or any other exception) is caught, a
warning is printed (the Bool), and the favorites list is reset to empty.
The function is total: no exception propagates to the caller. -/
def load_favorites (prior : List PyDict) (file : FavFile) : List PyDict × Bool :=
  match file with
  | .absent => (prior, false)
  | .invalidJson => ([], true)
  | .valid records => (records, false)

/-- NewsApp.save_favorites: opens the file in write mode and dumps the
whole favorites list, replacing any previous contents. -/
def save_favorites (_oldFile : FavFile) (favorites : List PyDict) : FavFile :=
  FavFile.valid favorites

/-- Whether a stored record carries no fields beyond title and description
(extra abstracts the remaining provider key-value pairs). -/
def hasOnlyTitleDesc (d : PyDict) : Bool :=
  d.extra == 0

/-- The operations the module-level main coroutine performs. -/
inductive MainOp where
  | newsAppInit
  | fetchHeadlinesOp (country_code : String)
  | checkForUpdatesOp
deriving DecidableEq, Repr

/-- The body of main(page): it constructs NewsApp(page) and awaits
fetch_headlines on country jp; it schedules nothing else. -/
def mainOps : List MainOp :=
  [MainOp.newsAppInit, MainOp.fetchHeadlinesOp "jp"]

/-- One iteration of the NewsApp.check_for_updates loop after the sleep:
fetch_headlines on the current country, then show_snack_bar with the
update notification; the Bool records that the notification was shown. -/
def check_for_updates_tick (tr : Translator) (s : AppState) (resp : FetchResult) :
    AppState × Bool :=
  (fetch_headlines tr s s.current_country resp, true)

/-- The pagination invariant of the spec: current_page lies below the page
count when all_articles is non-empty, and equals 0 when it is empty. -/
def pageInvariant (s : AppState) : Bool :=
  if s.all_articles.isEmpty then s.current_page == 0
  else decide (s.current_page < pageCount s.all_articles.length s.articles_per_page)

/-- A translator whose every call raises (caught inside translate_text). -/
def trNone : Translator := fun _ => none

/-- A stored favorite carrying one provider field beyond title and
description. -/
def favExtra : PyDict := ⟨some "A", some "B", 1⟩

/-- An article with the same title and description as favExtra and no other
fields, hence matching it without being dictionary-equal to it. -/
def artPlain : PyDict := ⟨some "A", some "B", 0⟩

def elevenArticles : List PyDict :=
  (List.range 11).map fun i => ⟨some (toString i), some "d", 0⟩

def fifteenArticles : List PyDict :=
  (List.range 15).map fun i => ⟨some ("t" ++ toString i), some "d", 0⟩

/-- A reachable state: initial state, a successful fetch of eleven
articles, then one forward page change (current_page ends at 1). -/
def c1Start : AppState :=
  change_page
    (fetch_headlines trNone (initState []) "jp" (FetchResult.ok (some elevenArticles))) 1

/-- A reachable state after a successful fetch of fifteen articles: the
pagination row is visible. -/
def c6Start : AppState :=
  fetch_headlines trNone (initState []) "jp" (FetchResult.ok (some fifteenArticles))

/-- C5: when the favorites file contains invalid JSON, load_favorites yields
an empty favorites set together with a recoverable warning; the function is
total, so no exception propagates to the caller. -/
theorem load_favorites_invalid_json (prior : List PyDict) :
    load_favorites prior FavFile.invalidJson = ([], true) := rfl

/-- C10: is_favorite matches only on title and description while the removal
branch removes by full-dictionary equality, so for an article matching a
stored favorite on title and description without being dictionary-equal to
any stored record, the toggle raises the ValueError of list.remove. -/
theorem toggle_raises_on_matching_nonequal :
    is_favorite [favExtra] artPlain = true ∧ favExtra ≠ artPlain ∧
    handle_favorite_click [favExtra] artPlain = Except.error () := by
  refine ⟨rfl, by decide, rfl⟩

/-- C2: main only constructs the app and awaits one fetch, never scheduling
the check_for_updates coroutine, so no background timer task runs; moreover
one loop iteration of check_for_updates shows the update notification
unconditionally, also when the fetch it performed failed. -/
theorem update_timer_never_scheduled :
    MainOp.checkForUpdatesOp ∉ mainOps ∧
    ∀ (tr : Translator) (s : AppState) (resp : FetchResult),
      (check_for_updates_tick tr s resp).2 = true :=
  ⟨by decide, fun _ _ _ => rfl⟩

/-- C1 counterexample: from a reachable state satisfying the invariant
(eleven articles, current page 1), a fetch that succeeds with zero articles
empties the article list but leaves current_page at 1, breaching the
current_page = 0 clause for the empty list. -/
theorem page_invariant_not_preserved :
    pageInvariant c1Start = true ∧
    pageInvariant (fetch_headlines trNone c1Start "jp" (FetchResult.ok (some []))) = false := by
  refine ⟨rfl, rfl⟩

/-- C4 counterexample: on the duplicate-record favorites state loadable from
a valid favorites file, a double toggle with the identical article removes
both copies, turning membership from present into absent instead of
restoring it. -/
theorem double_toggle_not_identity :
    (load_favorites [] (FavFile.valid [artPlain, artPlain])).1 = [artPlain, artPlain] ∧
    is_favorite [artPlain, artPlain] artPlain = true ∧
    doubleToggle [artPlain, artPlain] artPlain = Except.ok [] ∧
    is_favorite [] artPlain = false := by
  refine ⟨rfl, rfl, rfl, rfl⟩

/-- C6 counterexample: after a fifteen-article fetch has made the pagination
row visible, a fetch that succeeds with zero articles leaves the pagination
row visible (the empty branch of process_news_response returns before
touching it), contradicting the no-pagination-controls clause. -/
theorem empty_fetch_keeps_pagination_visible :
    c6Start.pagination_visible = true ∧
    (fetch_headlines trNone c6Start "jp" (FetchResult.ok (some []))).pagination_visible = true ∧
    (fetch_headlines trNone c6Start "jp" (FetchResult.ok (some []))).all_articles = [] := by
  refine ⟨rfl, rfl, rfl⟩

/-- C7 counterexample: toggling a provider article that carries a field
beyond title and description stores and persists the full raw dictionary,
so the saved array is not made of bare title/description objects. -/
theorem saved_favorites_keep_extra_fields :
    handle_favorite_click [] favExtra = Except.ok [favExtra] ∧
    save_favorites (FavFile.valid []) [favExtra] = FavFile.valid [favExtra] ∧
    hasOnlyTitleDesc favExtra = false := by
  refine ⟨rfl, rfl, rfl⟩

/-- C9: change_page moves to current + delta exactly when that result lies
in the interval from 0 up to the page count, and is otherwise a no-op on
the whole state; a nextPage on the last page falls in the second case. -/
theorem change_page_spec (s : AppState) (delta : Int) :
    (0 ≤ (s.current_page : Int) + delta ∧
        (s.current_page : Int) + delta <
          (pageCount s.all_articles.length s.articles_per_page : Int) →
      (change_page s delta).current_page = ((s.current_page : Int) + delta).toNat ∧
      (change_page s delta).all_articles = s.all_articles) ∧
    (¬(0 ≤ (s.current_page : Int) + delta ∧
        (s.current_page : Int) + delta <
          (pageCount s.all_articles.length s.articles_per_page : Int)) →
      change_page s delta = s) := by
  constructor
  · intro h
    simp only [change_page, if_pos h]
    exact ⟨rfl, rfl⟩
  · intro h
    simp only [change_page, if_neg h]

/-- C9 witness: after the fifteen-article fetch, a nextPage moves to page 1
and a further nextPage is a no-op. -/
theorem change_page_spec_witness :
    (change_page c6Start 1).current_page = 1 ∧
    change_page (change_page c6Start 1) 1 = change_page c6Start 1 := by
  constructor
  · have h := (change_page_spec c6Start 1).1 (by refine ⟨by decide, by decide⟩)
    simpa using h.1
  · exact (change_page_spec (change_page c6Start 1) 1).2 (by decide)

/-- C3: on a non-empty batch the pipeline output is exactly the input list
mapped through per-article enrichment, so no article is dropped and no
single translation failure aborts the others; and whenever the
translation of a non-empty title or description raises, the corresponding
translated field equals the original text verbatim. -/
theorem translation_failure_fallback (tr : Translator) (s : AppState) (cc : String)
    (arts : List PyDict) (hprior : s.all_articles = []) (hne : arts ≠ []) :
    (process_news_response tr s (some arts) cc).all_articles =
      arts.map (fun a => create_article_container a (translate_article tr a)) ∧
    ∀ a ∈ arts,
      (a.title.getD "" ≠ "" → tr (a.title.getD "") = none →
        (translate_article tr a).translated_title = a.title.getD "") ∧
      (a.description.getD "" ≠ "" → tr (a.description.getD "") = none →
        (translate_article tr a).translated_description = a.description.getD "") := by
  constructor
  · have hemp : arts.isEmpty = false := by
      simpa [List.isEmpty_iff] using hne
    simp [process_news_response, update_status, display_articles, hemp, hprior]
  · intro a _
    constructor
    · intro hnz hfail
      simp [translate_article, translate_text, hnz, hfail]
    · intro hnz hfail
      simp [translate_article, translate_text, hnz, hfail]

/-- C3 witness: a one-article batch whose every translation call raises is
enriched with both original fields kept verbatim. -/
theorem translation_failure_fallback_witness :
    (process_news_response trNone (initState []) (some [artPlain]) "jp").all_articles =
      [artPlain].map (fun a => create_article_container a (translate_article trNone a)) ∧
    ∀ a ∈ [artPlain],
      (a.title.getD "" ≠ "" → trNone (a.title.getD "") = none →
        (translate_article trNone a).translated_title = a.title.getD "") ∧
      (a.description.getD "" ≠ "" → trNone (a.description.getD "") = none →
        (translate_article trNone a).translated_description = a.description.getD "") :=
  translation_failure_fallback trNone (initState []) "jp" [artPlain] rfl (by decide)

/-- C6 amended: a fetch that succeeds with zero articles ends with the
loading indicator hidden, the dedicated no-articles status for the country,
empty article and headline lists, and pagination visibility (like the
current page) left unchanged from the prior state rather than hidden. -/
theorem empty_fetch_ready_state (tr : Translator) (s : AppState) (cc : String)
    (data : Option (List PyDict)) (hempty : data.getD [] = []) :
    (fetch_headlines tr s cc (FetchResult.ok data)).status =
      country_name cc ++ "のニュースが見つかりませんでした。" ∧
    (fetch_headlines tr s cc (FetchResult.ok data)).all_articles = [] ∧
    (fetch_headlines tr s cc (FetchResult.ok data)).headlines = [] ∧
    (fetch_headlines tr s cc (FetchResult.ok data)).loading_visible = false ∧
    (fetch_headlines tr s cc (FetchResult.ok data)).pagination_visible =
      s.pagination_visible ∧
    (fetch_headlines tr s cc (FetchResult.ok data)).current_page = s.current_page := by
  have hemp : (data.getD []).isEmpty = true := by
    simp [hempty]
  simp [fetch_headlines, process_news_response, update_status, hemp]

/-- C6 amended witness: from the post-fifteen-article state, a fetch with an
empty payload shows the no-articles status while the pagination row stays as
it was. -/
theorem empty_fetch_ready_state_witness :
    (fetch_headlines trNone c6Start "jp" (FetchResult.ok (some []))).status =
      country_name "jp" ++ "のニュースが見つかりませんでした。" ∧
    (fetch_headlines trNone c6Start "jp" (FetchResult.ok (some []))).all_articles = [] ∧
    (fetch_headlines trNone c6Start "jp" (FetchResult.ok (some []))).headlines = [] ∧
    (fetch_headlines trNone c6Start "jp" (FetchResult.ok (some []))).loading_visible = false ∧
    (fetch_headlines trNone c6Start "jp" (FetchResult.ok (some []))).pagination_visible =
      c6Start.pagination_visible ∧
    (fetch_headlines trNone c6Start "jp" (FetchResult.ok (some []))).current_page =
      c6Start.current_page :=
  empty_fetch_ready_state trNone c6Start "jp" (some []) rfl

/-- Removal by list.remove shortens the list by exactly one element. -/
theorem listRemove_length {l l2 : List PyDict} {a : PyDict}
    (h : listRemove l a = some l2) : l.length = l2.length + 1 := by
  induction l generalizing l2 with
  | nil => simp [listRemove] at h
  | cons f fs ih =>
    by_cases hfa : f = a
    · simp only [listRemove, if_pos hfa, Option.some.injEq] at h
      subst h
      rfl
    · simp only [listRemove, if_neg hfa, Option.map_eq_some'] at h
      obtain ⟨l3, hl3, rfl⟩ := h
      simp [ih hl3]

/-- C7 amended: every favorites save writes the current favorites list as
the complete new file contents regardless of the prior file (full
replacement), one record per favorited article, each record being the
full raw dictionary of the article (possibly with provider fields beyond title
and description); a successful toggle changes the record count by one. -/
theorem save_favorites_replaces_file (oldFile oldFile2 : FavFile)
    (favs fs : List PyDict) (a : PyDict)
    (htoggle : handle_favorite_click favs a = Except.ok fs) :
    save_favorites oldFile fs = FavFile.valid fs ∧
    save_favorites oldFile fs = save_favorites oldFile2 fs ∧
    fs.length = (if is_favorite favs a then favs.length - 1 else favs.length + 1) := by
  refine ⟨rfl, rfl, ?_⟩
  by_cases hf : is_favorite favs a
  · simp only [handle_favorite_click, if_pos hf] at htoggle
    rw [if_pos hf]
    rcases hrem : listRemove favs a with _ | fs2
    · rw [hrem] at htoggle
      exact absurd htoggle (by simp)
    · rw [hrem] at htoggle
      obtain rfl : fs2 = fs := by simpa using htoggle
      simp [listRemove_length hrem]
  · simp only [handle_favorite_click, if_neg hf] at htoggle
    obtain rfl : favs ++ [a] = fs := by simpa using htoggle
    simp [if_neg hf]

/-- C7 amended witness: toggling favExtra into an empty favorites list saves
exactly that one full record, whatever the prior file contained. -/
theorem save_favorites_replaces_file_witness :
    save_favorites FavFile.invalidJson [favExtra] = FavFile.valid [favExtra] ∧
    save_favorites FavFile.invalidJson [favExtra] =
      save_favorites FavFile.absent [favExtra] ∧
    ([favExtra] : List PyDict).length =
      (if is_favorite [] favExtra then ([] : List PyDict).length - 1
       else ([] : List PyDict).length + 1) :=
  save_favorites_replaces_file FavFile.invalidJson FavFile.absent [] [favExtra] favExtra rfl

/-- Page 0 is the first pageSize elements. -/
theorem pageSlice_zero (l : List α) (per : Nat) : pageSlice l 0 per = l.take per := by
  simp [pageSlice]

/-- Page p + 1 of a list is page p of the list with its first pageSize
elements dropped. -/
theorem pageSlice_succ (l : List α) (p per : Nat) :
    pageSlice l (p + 1) per = pageSlice (l.drop per) p per := by
  unfold pageSlice
  rw [List.take_drop, List.drop_drop]
  have h1 : (p + 1) * per + per = per + (p * per + per) := by ring
  have h2 : (p + 1) * per = p * per + per := by ring
  have h3 : p * per + per = per + p * per := by ring
  rw [h1, h2, h3]

/-- An empty list has zero pages. -/
theorem pageCount_zero (per : Nat) : pageCount 0 per = 0 := by
  unfold pageCount
  rcases per with _ | p
  · rfl
  · exact Nat.div_eq_of_lt (by omega)

/-- A non-empty list has a positive page count. -/
theorem pageCount_pos {n per : Nat} (hper : 0 < per) (hn : 0 < n) :
    0 < pageCount n per :=
  Nat.div_pos (by omega) hper

/-- Dropping one page of elements lowers the page count by one. -/
theorem pageCount_step {n per : Nat} (hper : 0 < per) (hn : 0 < n) :
    pageCount n per = pageCount (n - per) per + 1 := by
  unfold pageCount
  by_cases h : n ≤ per
  · have h1 : n - per = 0 := by omega
    rw [h1]
    have hl : (n + per - 1) / per = 1 := by
      apply Nat.div_eq_of_lt_le
      · omega
      · omega
    have hr : (0 + per - 1) / per = 0 := Nat.div_eq_of_lt (by omega)
    omega
  · have h2 : n + per - 1 = (n - per + per - 1) + per := by omega
    rw [h2, Nat.add_div_right _ hper]

/-- Concatenating the slices of all page indices below the page count
reproduces the list, proved by fuel recursion on a length bound. -/
theorem joinPages_aux {per : Nat} (hper : 0 < per) :
    ∀ (fuel : Nat) (l : List α), l.length ≤ fuel →
      (List.range (pageCount l.length per)).flatMap (fun i => pageSlice l i per) = l := by
  intro fuel
  induction fuel with
  | zero =>
    intro l hl
    obtain rfl : l = [] := List.length_eq_zero.mp (Nat.le_zero.mp hl)
    simp [pageCount_zero]
  | succ m ih =>
    intro l hl
    rcases eq_or_ne l [] with rfl | hne
    · simp [pageCount_zero]
    · have hn : 0 < l.length := List.length_pos.mpr hne
      have hstep : pageCount l.length per = pageCount (l.drop per).length per + 1 := by
        rw [List.length_drop]
        exact pageCount_step hper hn
      rw [hstep, List.range_succ_eq_map, List.flatMap_cons, List.flatMap_map]
      have hsl : ∀ i : Nat, pageSlice l (Nat.succ i) per = pageSlice (l.drop per) i per :=
        fun i => pageSlice_succ l i per
      have hbody :
          (List.range (pageCount (l.drop per).length per)).flatMap
              (fun a => pageSlice l a.succ per) =
            (List.range (pageCount (l.drop per).length per)).flatMap
              (fun i => pageSlice (l.drop per) i per) := by
        apply congrArg
        funext i
        exact hsl i
      rw [hbody, ih (l.drop per) (by rw [List.length_drop]; omega)]
      rw [pageSlice_zero, List.take_append_drop]

/-- The integer page-count formula equals the rational ceiling of total
divided by pageSize. -/
theorem pageCount_eq_ceil {total per : Nat} (hper : 0 < per) :
    pageCount total per = ⌈(total : ℚ) / (per : ℚ)⌉₊ := by
  rcases Nat.eq_zero_or_pos total with rfl | htot
  · simp [pageCount_zero]
  · have hq : 0 < pageCount total per := pageCount_pos hper htot
    have hperq : (0 : ℚ) < (per : ℚ) := by exact_mod_cast hper
    have hdm := Nat.div_add_mod (total + per - 1) per
    have hmod : (total + per - 1) % per < per := Nat.mod_lt _ hper
    set q := pageCount total per with hqdef
    have hqval : per * ((total + per - 1) / per) + (total + per - 1) % per =
        total + per - 1 := hdm
    have hq2 : per * q + (total + per - 1) % per = total + per - 1 := by
      rw [hqdef]; exact hqval
    symm
    rw [Nat.ceil_eq_iff (by omega)]
    constructor
    · have hlow : (q - 1) * per < total := by
        have h3 : (q - 1) * per = q * per - per := by
          rw [Nat.sub_mul, one_mul]
        have h4 : q * per = per * q := Nat.mul_comm q per
        omega
      rw [lt_div_iff₀ hperq]
      have : ((q - 1 : Nat) : ℚ) * (per : ℚ) < (total : ℚ) := by
        exact_mod_cast hlow
      exact this
    · have hup : total ≤ q * per := by
        have h4 : q * per = per * q := Nat.mul_comm q per
        omega
      rw [div_le_iff₀ hperq]
      exact_mod_cast hup

/-- C8: the page-count formula of display_articles equals the ceiling of
total over pageSize, vanishes at zero, and the slices for page indices
0 .. pageCount - 1 concatenate back to the article list exactly — every
element lies in exactly one page, with no overlap and no gap. -/
theorem pagination_partition (total per : Nat) (l : List ArticleContainer)
    (hper : 0 < per) :
    pageCount total per = ⌈(total : ℚ) / (per : ℚ)⌉₊ ∧
    pageCount 0 per = 0 ∧
    joinPages l per = l :=
  ⟨pageCount_eq_ceil hper, pageCount_zero per,
    joinPages_aux hper l.length l le_rfl⟩

/-- C8 witness: seven articles at page size three. -/
theorem pagination_partition_witness :
    pageCount 7 3 = ⌈(7 : ℚ) / (3 : ℚ)⌉₊ ∧
    pageCount 0 3 = 0 ∧
    joinPages (c6Start.all_articles.take 7) 3 = c6Start.all_articles.take 7 := by
  have h := pagination_partition 7 3 (c6Start.all_articles.take 7) (by decide)
  simpa using h

/-- Every record matches itself on title and description. -/
theorem matchesTD_refl (a : PyDict) : matchesTD a a = true := by
  simp [matchesTD]

/-- A record that fails the title/description match differs from the
article as a full dictionary. -/
theorem ne_of_matchesTD_false {f a : PyDict} (h : matchesTD f a = false) : f ≠ a := by
  intro heq
  rw [heq, matchesTD_refl] at h
  simp at h

/-- Removing the appended article from a list none of whose elements equals
it gives back the list. -/
theorem listRemove_append_self {l : List PyDict} {a : PyDict}
    (h : ∀ f ∈ l, f ≠ a) : listRemove (l ++ [a]) a = some l := by
  induction l with
  | nil => simp [listRemove]
  | cons f fs ih =>
    have hfa : f ≠ a := h f (by simp)
    have htail := ih (fun g hg => h g (by simp [hg]))
    show (if f = a then some (fs ++ [a])
          else (listRemove (fs ++ [a]) a).map (f :: ·)) = some (f :: fs)
    rw [if_neg hfa, htail]
    rfl

/-- When every title/description match is dictionary-equal to the article
and at most one record matches, removal succeeds and leaves no match. -/
theorem listRemove_unique_match {l : List PyDict} {a : PyDict}
    (h1 : ∀ f ∈ l, matchesTD f a = true → f = a)
    (h2 : (l.filter (fun f => matchesTD f a)).length ≤ 1)
    (h3 : is_favorite l a = true) :
    ∃ l2, listRemove l a = some l2 ∧ is_favorite l2 a = false := by
  induction l with
  | nil => simp [is_favorite] at h3
  | cons f fs ih =>
    by_cases hm : matchesTD f a = true
    · have hfa : f = a := h1 f (by simp) hm
      refine ⟨fs, by simp [listRemove, hfa], ?_⟩
      have hfil : (fs.filter (fun g => matchesTD g a)).length = 0 := by
        rw [List.filter_cons_of_pos (by simpa using hm)] at h2
        simpa using h2
      have hall : ∀ g ∈ fs, matchesTD g a = false := by
        intro g hg
        by_contra hc
        have hmem : g ∈ fs.filter (fun g => matchesTD g a) :=
          List.mem_filter.mpr ⟨hg, by simpa using hc⟩
        have hpos := List.length_pos.mpr (List.ne_nil_of_mem hmem)
        omega
      simp only [is_favorite, List.any_eq_false]
      intro g hg
      simp [hall g hg]
    · have hmf : matchesTD f a = false := by simpa using hm
      have hfa : f ≠ a := ne_of_matchesTD_false hmf
      have h3fs : is_favorite fs a = true := by
        simp only [is_favorite, List.any_cons, hmf, Bool.false_or] at h3
        exact h3
      have h2fs : (fs.filter (fun g => matchesTD g a)).length ≤ 1 := by
        rw [List.filter_cons_of_neg (by simpa using hm)] at h2
        exact h2
      obtain ⟨l3, hl3, hfav3⟩ := ih (fun g hg hgm => h1 g (by simp [hg]) hgm) h2fs h3fs
      refine ⟨f :: l3, ?_, ?_⟩
      · simp [listRemove, if_neg hfa, hl3]
      · simp only [is_favorite, List.any_cons, hmf, Bool.false_or]
        simpa [is_favorite] using hfav3

/-- C4 amended: a double toggle with the identical article argument restores
the membership of the article provided every stored favorite matching it on
title and description is dictionary-equal to it and at most one stored
record matches; without those provisos (duplicate or extended records
loaded from the favorites file) the double toggle can flip membership or
raise. -/
theorem double_toggle_membership (favs : List PyDict) (a : PyDict)
    (h1 : ∀ f ∈ favs, matchesTD f a = true → f = a)
    (h2 : (favs.filter (fun f => matchesTD f a)).length ≤ 1) :
    ∃ fs, doubleToggle favs a = Except.ok fs ∧
      is_favorite fs a = is_favorite favs a := by
  by_cases hf : is_favorite favs a = true
  · obtain ⟨l2, hrem, hl2⟩ := listRemove_unique_match h1 h2 hf
    have step1 : handle_favorite_click favs a = Except.ok l2 := by
      simp [handle_favorite_click, hf, hrem]
    have step2 : handle_favorite_click l2 a = Except.ok (l2 ++ [a]) := by
      simp [handle_favorite_click, hl2]
    refine ⟨l2 ++ [a], by simp [doubleToggle, step1, step2], ?_⟩
    rw [hf]
    simp [is_favorite, List.any_append, matchesTD_refl]
  · have hf2 : is_favorite favs a = false := by simpa using hf
    have hne : ∀ f ∈ favs, f ≠ a := by
      intro f hfm
      have := List.any_eq_false.mp hf2 f hfm
      exact ne_of_matchesTD_false (by simpa using this)
    have hrm := listRemove_append_self hne
    have step1 : handle_favorite_click favs a = Except.ok (favs ++ [a]) := by
      simp [handle_favorite_click, hf2]
    have hfapp : is_favorite (favs ++ [a]) a = true := by
      simp [is_favorite, List.any_append, matchesTD_refl]
    have step2 : handle_favorite_click (favs ++ [a]) a = Except.ok favs := by
      simp [handle_favorite_click, hfapp, hrm]
    exact ⟨favs, by simp [doubleToggle, step1, step2], rfl⟩

/-- C4 amended witness: a single well-formed stored favorite toggles off and
back on, ending with the original membership. -/
theorem double_toggle_membership_witness :
    ∃ fs, doubleToggle [artPlain] artPlain = Except.ok fs ∧
      is_favorite fs artPlain = is_favorite [artPlain] artPlain :=
  double_toggle_membership [artPlain] artPlain (by decide) (by decide)

/-- Unfolding equation for the pagination invariant. -/
theorem pageInvariant_eq (s : AppState) :
    pageInvariant s =
      if s.all_articles.isEmpty then s.current_page == 0
      else decide (s.current_page < pageCount s.all_articles.length s.articles_per_page) :=
  rfl

/-- Fields display_articles leaves or sets besides the widget contents. -/
theorem display_articles_fields (s : AppState) (p : Nat) :
    (display_articles s p).current_page = p ∧
    (display_articles s p).all_articles = s.all_articles ∧
    (display_articles s p).articles_per_page = s.articles_per_page :=
  ⟨rfl, rfl, rfl⟩

/-- A fetch whose response carries a non-empty article payload ends at page
0 with the enriched payload as the whole article list and the page size
untouched. -/
theorem fetch_headlines_nonempty (tr : Translator) (s : AppState) (cc : String)
    (data : Option (List PyDict)) (hemp : (data.getD []).isEmpty = false) :
    (fetch_headlines tr s cc (FetchResult.ok data)).all_articles =
      (data.getD []).map (fun a => create_article_container a (translate_article tr a)) ∧
    (fetch_headlines tr s cc (FetchResult.ok data)).current_page = 0 ∧
    (fetch_headlines tr s cc (FetchResult.ok data)).articles_per_page =
      s.articles_per_page := by
  refine ⟨?_, ?_, ?_⟩ <;>
    simp [fetch_headlines, process_news_response, update_status, display_articles, hemp]

/-- A fetch that ends with no articles (empty payload, non-200 status, or a
raised exception) leaves the current page and the page size untouched. -/
theorem fetch_headlines_emptied (tr : Translator) (s : AppState) (cc : String)
    (resp : FetchResult)
    (hempty : (fetch_headlines tr s cc resp).all_articles = []) :
    (fetch_headlines tr s cc resp).current_page = s.current_page ∧
    (fetch_headlines tr s cc resp).articles_per_page = s.articles_per_page := by
  rcases resp with data | code | msg
  · by_cases hemp : (data.getD []).isEmpty = true
    · constructor <;>
        simp [fetch_headlines, process_news_response, update_status, hemp]
    · exfalso
      have hemp2 : (data.getD []).isEmpty = false := by simpa using hemp
      have hart := (fetch_headlines_nonempty tr s cc data hemp2).1
      rw [hempty] at hart
      rcases hgd : data.getD [] with _ | ⟨x, xs⟩
      · rw [hgd] at hemp2
        simp at hemp2
      · rw [hgd] at hart
        simp at hart
  · constructor <;> simp [fetch_headlines, update_status]
  · constructor <;> simp [fetch_headlines, update_status]

/-- C1 amended: change_page preserves the pagination invariant, and any
fetch that ends with a non-empty article list establishes it by resetting
the current page to 0; but a fetch that ends with an empty article list
leaves the current page unchanged, so the current_page = 0 clause of the
empty case survives a fetch only when the page was already 0. -/
theorem page_invariant_amended (tr : Translator) (s : AppState) (cc : String)
    (resp : FetchResult) (delta : Int) (hper : 0 < s.articles_per_page) :
    (pageInvariant s = true → pageInvariant (change_page s delta) = true) ∧
    ((fetch_headlines tr s cc resp).all_articles ≠ [] →
      pageInvariant (fetch_headlines tr s cc resp) = true) ∧
    ((fetch_headlines tr s cc resp).all_articles = [] →
      (fetch_headlines tr s cc resp).current_page = s.current_page) := by
  refine ⟨?_, ?_, ?_⟩
  · intro hinv
    by_cases h : 0 ≤ (s.current_page : Int) + delta ∧
        (s.current_page : Int) + delta <
          (pageCount s.all_articles.length s.articles_per_page : Int)
    · simp only [change_page, if_pos h]
      rcases hart : s.all_articles with _ | ⟨x, xs⟩
      · exfalso
        rw [hart] at h
        simp only [List.length_nil, pageCount_zero, Nat.cast_zero] at h
        omega
      · have hne : s.all_articles.isEmpty = false := by rw [hart]; rfl
        obtain ⟨hcp, hart2, hper2⟩ :=
          display_articles_fields s (((s.current_page : Int) + delta).toNat)
        rw [pageInvariant_eq, hcp, hart2, hper2, hne, if_neg Bool.false_ne_true,
          decide_eq_true_eq]
        omega
    · simp only [change_page, if_neg h]
      exact hinv
  · intro hne
    rcases resp with data | code | msg
    · by_cases hemp : (data.getD []).isEmpty = true
      · exfalso
        apply hne
        simp [fetch_headlines, process_news_response, update_status, hemp]
      · have hemp2 : (data.getD []).isEmpty = false := by simpa using hemp
        have hlen : 0 < (data.getD []).length := by
          rcases hgd : data.getD [] with _ | ⟨x, xs⟩
          · rw [hgd] at hemp2
            simp at hemp2
          · simp
        obtain ⟨hart, hpage, hper2⟩ := fetch_headlines_nonempty tr s cc data hemp2
        have hartlen : (fetch_headlines tr s cc (FetchResult.ok data)).all_articles.length =
            (data.getD []).length := by
          rw [hart, List.length_map]
        have hartne : (fetch_headlines tr s cc (FetchResult.ok data)).all_articles.isEmpty
            = false := by
          rcases hres : (fetch_headlines tr s cc (FetchResult.ok data)).all_articles with
            _ | ⟨y, ys⟩
          · rw [hres] at hartlen
            simp at hartlen
            omega
          · rfl
        rw [pageInvariant_eq, hartne, if_neg Bool.false_ne_true, hpage, hartlen, hper2,
          decide_eq_true_eq]
        exact pageCount_pos hper hlen
    · exfalso
      apply hne
      simp [fetch_headlines, update_status]
    · exfalso
      apply hne
      simp [fetch_headlines, update_status]
  · intro hempty
    exact (fetch_headlines_emptied tr s cc resp hempty).1

/-- C1 amended witness: the eleven-article page-1 state satisfies the
instantiated conjunction for a backward page change and an empty refetch. -/
theorem page_invariant_amended_witness :
    (pageInvariant c1Start = true → pageInvariant (change_page c1Start (-1)) = true) ∧
    ((fetch_headlines trNone c1Start "jp" (FetchResult.ok (some []))).all_articles ≠ [] →
      pageInvariant (fetch_headlines trNone c1Start "jp" (FetchResult.ok (some []))) = true) ∧
    ((fetch_headlines trNone c1Start "jp" (FetchResult.ok (some []))).all_articles = [] →
      (fetch_headlines trNone c1Start "jp" (FetchResult.ok (some []))).current_page =
        c1Start.current_page) :=
  page_invariant_amended trNone c1Start "jp" (FetchResult.ok (some [])) (-1) (by decide)

end NewsPick
